import Mathlib

/-!
Shallow embedding of the ABAPify repository (SAP metadata analyzer, LLM client
and RFC connection context) together with proofs of the specified properties.

The embedding follows `src/abapify/sap/metadata_analyzer.py`,
`src/abapify/sap/connection.py`, `src/abapify/sap/clients/rfc_client.py`,
`src/abapify/llm/client.py` and the data model in `src/abapify/sap/models.py`.
Python dictionaries returned by the transport are modelled as structures, the
transport itself as an oracle of functions returning `Except` (an `error`
models a raised exception), and the mutable caches of `MetadataAnalyzer` as an
explicit state record threaded through the functions.
-/

namespace ABAPify

/-- Association-list lookup, modelling Python dict access by string key. -/
def lookup {α : Type} : List (String × α) → String → Option α
  | [], _ => none
  | (k, v) :: rest, key => if k = key then some v else lookup rest key

/-- Model of a calendar date as produced by datetime.strptime with format
YYYYMMDD (only year, month, day are relevant). -/
structure SAPDate where
  year : Nat
  month : Nat
  day : Nat
deriving DecidableEq, Repr

/-- Field of a SAP table, mirroring the pydantic model SAPTableField in
`models.py`. -/
structure SAPTableField where
  name : String
  data_type : String
  length : Nat
  decimals : Nat
  description : String
  key_field : Bool
  not_null : Bool
  domain : String
  data_element : String
deriving DecidableEq, Repr

/-- Relationship between tables, mirroring the pydantic model SAPRelationship. -/
structure SAPRelationship where
  from_table : String
  to_table : String
  from_fields : List String
  to_fields : List String
  relationship_type : String
  cardinality : String
deriving DecidableEq, Repr

/-- SAP table structure, mirroring the pydantic model SAPTable.  The unused
`indexes` field (always left at its default) is omitted.  `foreign_keys` holds
the relationship records themselves (the Python code stores `rel.dict()`, the
dictionary rendering of the same record). -/
structure SAPTable where
  name : String
  description : String
  table_type : String
  delivery_class : String
  fields : List SAPTableField
  foreign_keys : List SAPRelationship
  created_on : Option SAPDate
  changed_on : Option SAPDate
deriving DecidableEq, Repr

/-- Errors raised by `MetadataAnalyzer.analyze_table`: SAPTableNotFoundError
(carrying the table name) and the generic SAPMetadataError (carrying a
message).  They are distinct conditions, discriminated by Python
`except` clauses in that order. -/
inductive SAPError where
  | tableNotFound (table_name : String)
  | metadataError (message : String)
deriving DecidableEq, Repr

/-- Header record DD02V_WA of a structure document.  Each field models
`table_header.get(KEY)`: `none` when the key is absent. -/
structure TableHeader where
  ddtext : Option String
  tabclass : Option String
  clidep : Option String
  created_on : Option String
  changed_on : Option String
deriving DecidableEq, Repr

/-- Row of the DD03P_TAB table of a structure document.  String-valued keys
absent from the row are modelled as the empty string (Python `get` with a
falsy default); LENG and DECIMALS arrive as numbers. -/
structure FieldRow where
  fieldname : String
  datatype : String
  leng : Nat
  decimals : Nat
  ddtext : String
  keyflag : String
  notnull : String
  domname : String
  rollname : String
deriving DecidableEq, Repr

/-- Result dictionary of `get_table_structure`.  `header` is `some` exactly
when the key DD02V_WA is present (an empty dictionary has no keys, so the
Python test `not structure_data or DD02V_WA not in structure_data` is exactly
`header = none`).  `field_rows` is DD03P_TAB, defaulting to `[]`. -/
structure StructureDoc where
  header : Option TableHeader
  field_rows : List FieldRow
deriving DecidableEq, Repr

/-- Row of DD08V_TAB returned by the DDIF_FORKEY_GET call; absent string keys
are the empty string. -/
structure ForeignKeyRow where
  checktable : String
  fieldname : String
  checkfield : String
deriving DecidableEq, Repr

/-- Request record assembled for the RFC_READ_TABLE call issued by
`search_custom_tables`. -/
structure ReadTableRequest where
  query_table : String
  fields : List String
  options : List String
  rowcount : Nat
deriving DecidableEq, Repr

/-- Response of RFC_READ_TABLE: `data` is `some` exactly when the key DATA is
present; each row is the WA string of that row. -/
structure ReadTableResult where
  data : Option (List String)
deriving DecidableEq, Repr

/-- Transport oracle: one function per remote call the analyzer performs.  An
`error e` outcome models the call raising an exception with message `e`
(including connection failures of the `rfc_connection` context entered around
the call). -/
structure Connection where
  getTableStructure : String → Except String StructureDoc
  fetchForeignKeys : String → Except String (List ForeignKeyRow)
  readTable : ReadTableRequest → Except String ReadTableResult

/-- Mutable caches of a MetadataAnalyzer instance. -/
structure AnalyzerState where
  table_cache : List (String × SAPTable)
  rel_cache : List (String × List SAPRelationship)
deriving DecidableEq, Repr

/-- Fresh analyzer state: both caches empty. -/
def emptyState : AnalyzerState := { table_cache := [], rel_cache := [] }

/-- Model of `MetadataAnalyzer.clear_cache`. -/
def clear_cache (_s : AnalyzerState) : AnalyzerState :=
  { table_cache := [], rel_cache := [] }

/-- ASCII decimal digit test, modelling the digit class used by
datetime.strptime when matching the format YYYYMMDD. -/
def decimalDigit (c : Char) : Bool :=
  48 ≤ c.toNat && c.toNat ≤ 57

/-- Numeric value of one digit character. -/
def digitVal (c : Char) : Nat := c.toNat - 48

/-- Numeric value of a digit string, most significant digit first. -/
def digitsVal (cs : List Char) : Nat :=
  cs.foldl (fun acc c => acc * 10 + digitVal c) 0

/-- Gregorian leap-year rule, as implemented by Python datetime. -/
def isLeapYear (y : Nat) : Bool :=
  y % 4 == 0 && (y % 100 != 0 || y % 400 == 0)

/-- Number of days of month `m` in year `y`, as checked by the datetime
constructor. -/
def daysInMonth (y m : Nat) : Nat :=
  if m == 2 then (if isLeapYear y then 29 else 28)
  else if m == 4 || m == 6 || m == 9 || m == 11 then 30
  else 31

/-- Model of `MetadataAnalyzer._parse_sap_date`.  The Python code returns None
for a falsy input (None or the empty string) or a length other than 8, and
otherwise the result of datetime.strptime with format YYYYMMDD, with
ValueError mapped to None.  With exactly 8 characters, strptime succeeds
exactly when all characters are decimal digits, the first four form a year of
at least 1 (four digits bound it by 9999), the next two a month 1..12, and the
last two a valid day of that month. -/
def parse_sap_date : Option String → Option SAPDate
  | none => none
  | some s =>
    if s.length ≠ 8 then none
    else if ¬ (s.toList.all decimalDigit) then none
    else
      let y := digitsVal (s.toList.take 4)
      let m := digitsVal ((s.toList.drop 4).take 2)
      let d := digitsVal (s.toList.drop 6)
      if 1 ≤ y ∧ 1 ≤ m ∧ m ≤ 12 ∧ 1 ≤ d ∧ d ≤ daysInMonth y m then
        some ⟨y, m, d⟩
      else none

/-- Relationship record built for one DD08V_TAB row in
`_analyze_table_relationships`. -/
def mkRelationship (table_name : String) (fk : ForeignKeyRow) : SAPRelationship :=
  { from_table := table_name
    to_table := fk.checktable
    from_fields := [fk.fieldname]
    to_fields := [fk.checkfield]
    relationship_type := "FOREIGN_KEY"
    cardinality := "N:1" }

/-- Relationship list built from the DD08V_TAB rows: rows with a falsy (empty)
CHECKTABLE are skipped. -/
def relationshipsFromRows (table_name : String) (rows : List ForeignKeyRow) :
    List SAPRelationship :=
  rows.filterMap fun fk =>
    if fk.checktable ≠ "" then some (mkRelationship table_name fk) else none

/-- Model of `MetadataAnalyzer._analyze_table_relationships`: answer from the
relationship cache when present; otherwise call DDIF_FORKEY_GET, convert the
rows, swallow any exception (leaving the empty list), and cache the result. -/
def analyze_table_relationships (c : Connection) (s : AnalyzerState)
    (table_name : String) : List SAPRelationship × AnalyzerState :=
  match lookup s.rel_cache table_name with
  | some rels => (rels, s)
  | none =>
    let rels :=
      match c.fetchForeignKeys table_name with
      | .ok rows => relationshipsFromRows table_name rows
      | .error _ => []
    (rels, { s with rel_cache := (table_name, rels) :: s.rel_cache })

/-- Field conversion of one DD03P_TAB row in `analyze_table`: rows with a
falsy FIELDNAME or one starting with a dot are skipped. -/
def mkField (r : FieldRow) : Option SAPTableField :=
  if r.fieldname ≠ "" ∧ ¬ (r.fieldname.startsWith ".") then
    some { name := r.fieldname
           data_type := r.datatype
           length := r.leng
           decimals := r.decimals
           description := r.ddtext
           key_field := r.keyflag = "X"
           not_null := r.notnull = "X"
           domain := r.domname
           data_element := r.rollname }
  else none

/-- Table object constructed by `analyze_table` from the parsed header, the
converted field rows and the attached foreign keys. -/
def buildTable (table_name : String) (hdr : TableHeader)
    (rows : List FieldRow) (fks : List SAPRelationship) : SAPTable :=
  { name := table_name
    description := hdr.ddtext.getD ""
    table_type := hdr.tabclass.getD "TRANSP"
    delivery_class := hdr.clidep.getD "A"
    fields := rows.filterMap mkField
    foreign_keys := fks
    created_on := parse_sap_date hdr.created_on
    changed_on := parse_sap_date hdr.changed_on }

/-- Model of `MetadataAnalyzer.analyze_table`.  Cache hit returns the cached
table unchanged.  Otherwise the structure fetch is performed: an exception
becomes SAPMetadataError; a document without the DD02V_WA header raises
SAPTableNotFoundError; otherwise the table is built, relationships attached
when requested, and the table cached before returning. -/
def analyze_table (c : Connection) (s : AnalyzerState) (table_name : String)
    (include_relationships : Bool) : Except SAPError SAPTable × AnalyzerState :=
  match lookup s.table_cache table_name with
  | some t => (.ok t, s)
  | none =>
    match c.getTableStructure table_name with
    | .error e => (.error (.metadataError e), s)
    | .ok doc =>
      match doc.header with
      | none => (.error (.tableNotFound table_name), s)
      | some hdr =>
        let rs :=
          if include_relationships then analyze_table_relationships c s table_name
          else ([], s)
        let table := buildTable table_name hdr doc.field_rows rs.1
        (.ok table, { rs.2 with table_cache := (table_name, table) :: rs.2.table_cache })

/-- Model of `MetadataAnalyzer.analyze_multiple_tables`: each name is analyzed
(with relationships, the default); a SAPTableNotFoundError or any other
exception is logged and the name skipped. -/
def analyze_multiple_tables (c : Connection) :
    AnalyzerState → List String → List SAPTable × AnalyzerState
  | s, [] => ([], s)
  | s, n :: rest =>
    match analyze_table c s n true with
    | (.ok t, s1) =>
      let r := analyze_multiple_tables c s1 rest
      (t :: r.1, r.2)
    | (.error _, s1) => analyze_multiple_tables c s1 rest

/-- Traversal state of `find_related_tables`.  The fields `s`, `related`,
`to_process` and `processed` mirror the Python locals (Python sets are
represented as duplicate-free lists); `trace` and `targets_seen` are ghost
instrumentation used only to state properties: `trace` records, in order, each
table for which the relationship-processing body runs, and `targets_seen`
collects every relationship target encountered. -/
structure Trav where
  s : AnalyzerState
  related : List String
  to_process : List String
  processed : List String
  trace : List String
  targets_seen : List String

/-- Set-style insertion into a duplicate-free list. -/
def insertSet (x : String) (xs : List String) : List String :=
  if x ∈ xs then xs else xs ++ [x]

/-- Body of the relationship loop of `find_related_tables`: for one
relationship of the current table, record the target and, when it has not been
processed yet, add it to the result set and, when not at the last depth,
enqueue it for the next level. -/
def relStep (add_next : Bool) (tv : Trav) (rel : SAPRelationship) : Trav :=
  let tgt := rel.to_table
  let tv1 := { tv with targets_seen := insertSet tgt tv.targets_seen }
  if tgt ∈ tv1.processed then tv1
  else
    { tv1 with
      related := insertSet tgt tv1.related
      to_process := if add_next then insertSet tgt tv1.to_process else tv1.to_process }

/-- Body of the per-table loop of `find_related_tables`: skip a table already
processed, otherwise mark it processed, fetch its relationships (through the
cache) and run the relationship loop. -/
def procTable (c : Connection) (add_next : Bool) (tv : Trav) (cur : String) : Trav :=
  if cur ∈ tv.processed then tv
  else
    let tv1 := { tv with
      processed := insertSet cur tv.processed
      trace := tv.trace ++ [cur] }
    let rs := analyze_table_relationships c tv1.s cur
    let tv2 := { tv1 with s := rs.2 }
    rs.1.foldl (relStep add_next) tv2

/-- One depth level of `find_related_tables`: stop when nothing is left to
process; otherwise take the pending set as the current level, clear it, and
process each table of the level.  Targets are enqueued for the next level only
while `depth < max_depth - 1`. -/
def levelStep (c : Connection) (max_depth : Nat) (tv : Trav) (depth : Nat) : Trav :=
  if tv.to_process.isEmpty then tv
  else
    let level := tv.to_process
    procLevel c (decide (depth < max_depth - 1)) { tv with to_process := [] } level
where
  /-- Fold of `procTable` over the tables of one level. -/
  procLevel (c : Connection) (add_next : Bool) (tv : Trav) (level : List String) : Trav :=
    level.foldl (procTable c add_next) tv

/-- Whole traversal of `MetadataAnalyzer.find_related_tables`, returning the
final traversal state. -/
def find_related_tables_run (c : Connection) (table_name : String)
    (max_depth : Nat) (s : AnalyzerState) : Trav :=
  (List.range max_depth).foldl (levelStep c max_depth)
    { s := s, related := [], to_process := [table_name], processed := [],
      trace := [], targets_seen := [] }

/-- Model of `MetadataAnalyzer.find_related_tables`: the collected related
table names together with the updated analyzer state. -/
def find_related_tables (c : Connection) (table_name : String)
    (max_depth : Nat) (s : AnalyzerState) : List String × AnalyzerState :=
  let tv := find_related_tables_run c table_name max_depth s
  (tv.related, tv.s)

/-- Single-quote character, used in the OPTIONS strings assembled for
RFC_READ_TABLE. -/
def sq : String := String.singleton (Char.ofNat 39)

/-- Python str.strip(): remove whitespace from both ends of a character
list. -/
def pyStrip (cs : List Char) : List Char :=
  ((cs.dropWhile Char.isWhitespace).reverse.dropWhile Char.isWhitespace).reverse

/-- Python `row[:30].strip()` applied to a WA row: slicing is per character,
then whitespace is stripped from both ends. -/
def waName (wa : String) : String :=
  String.mk (pyStrip (wa.toList.take 30))

/-- Request assembled by `MetadataAnalyzer.search_custom_tables`: a query on
DD02L for TABNAME and DDTEXT, restricted by a LIKE condition on the name
pattern, TABCLASS = TRANSP and AS4LOCAL = A, with a fixed ROWCOUNT of 1000. -/
def searchRequest (name_pattern : String) : ReadTableRequest :=
  { query_table := "DD02L"
    fields := ["TABNAME", "DDTEXT"]
    options := ["TABNAME LIKE " ++ sq ++ name_pattern ++ sq,
                "AND TABCLASS = " ++ sq ++ "TRANSP" ++ sq,
                "AND AS4LOCAL = " ++ sq ++ "A" ++ sq]
    rowcount := 1000 }

/-- Model of `MetadataAnalyzer.search_custom_tables`: issue the RFC_READ_TABLE
request; on any exception return the empty list; otherwise take the first 30
characters of each WA row, strip whitespace, and keep the nonempty names. -/
def search_custom_tables (c : Connection) (name_pattern : String) : List String :=
  match c.readTable (searchRequest name_pattern) with
  | .error _ => []
  | .ok res =>
    match res.data with
    | none => []
    | some rows =>
      rows.filterMap fun wa =>
        let tn := waName wa
        if tn ≠ "" then some tn else none

/-- Environment variables consulted by `LLMClient._get_default_provider`:
whether GROQ_API_KEY and OPENAI_API_KEY are set to truthy values. -/
structure EnvVars where
  groq_api_key : Bool
  openai_api_key : Bool
deriving DecidableEq, Repr

/-- Model of `LLMClient._get_default_provider`: groq when GROQ_API_KEY is set,
else openai when OPENAI_API_KEY is set, else groq. -/
def get_default_provider (env : EnvVars) : String :=
  if env.groq_api_key then "groq"
  else if env.openai_api_key then "openai"
  else "groq"

/-- A provider implementation: system prompt, user prompt and optional model
name to generated text.  The temperature and token-limit arguments are passed
through unchanged by the client and are irrelevant to the routed behavior, so
they are not modelled. -/
def ProviderFn : Type := String → String → Option String → String

/-- Error raised by `LLMClient.generate`, carrying the unknown provider name. -/
inductive LLMError where
  | providerNotFound (provider_name : String)
deriving DecidableEq, Repr

/-- Model of an `LLMClient` instance: the registered provider map and the
default provider name. -/
structure LLMClient where
  providers : List (String × ProviderFn)
  default_provider : String

/-- Model of `LLMClient.__init__`: registers the groq and openai providers and
computes the default provider from the environment. -/
def mkLLMClient (env : EnvVars) (groqGen openaiGen : ProviderFn) : LLMClient :=
  { providers := [("groq", groqGen), ("openai", openaiGen)]
    default_provider := get_default_provider env }

/-- Model of `LLMClient.generate`.  The Python expression
`provider or self._default_provider` selects the default both when `provider`
is None and when it is the falsy empty string.  An unregistered resolved name
raises LLMProviderNotFoundError; otherwise the selected provider is invoked. -/
def LLMClient.generate (c : LLMClient) (system_prompt user_prompt : String)
    (provider : Option String) (model_name : Option String) :
    Except LLMError String :=
  let provider_name :=
    match provider with
    | none => c.default_provider
    | some p => if p = "" then c.default_provider else p
  match lookup c.providers provider_name with
  | none => .error (.providerNotFound provider_name)
  | some p => .ok (p system_prompt user_prompt model_name)

/-- Connection state of an RFCClient: the `_connection` attribute, None or the
marker string set by a successful connect. -/
structure RFCState where
  conn : Option String
deriving DecidableEq, Repr

/-- Static model of an RFCClient instance for the purposes of `connect`:
`none` when no HTTP fallback is configured (no base URL), otherwise the
outcome of `test_connection` on the fallback (`error` modelling an exception
raised by the probe). -/
structure RFCClientModel where
  http_fallback_test : Option (Except String Bool)

/-- Model of `RFCClient.connect` (the PyRFC branch is dead code since
PYRFC_AVAILABLE is False): without a fallback raise SAPConnectionError;
otherwise probe the fallback and either record the connection or raise. -/
def RFCClientModel.connect (cl : RFCClientModel) (st : RFCState) :
    Except String RFCState :=
  match cl.http_fallback_test with
  | none => .error "PyRFC nao disponivel e nenhuma URL HTTP configurada"
  | some (.error e) => .error e
  | some (.ok true) => .ok { st with conn := some "http_fallback" }
  | some (.ok false) => .error "Falha na conexao HTTP fallback"

/-- Model of `RFCClient.disconnect`: clears the connection. -/
def RFCClientModel.disconnect (st : RFCState) : RFCState :=
  { st with conn := none }

/-- Model of `RFCClient.connection_context`.  The body receives the connected
state and yields either a value (normal completion or early return) or an
error (exception), together with the state it leaves; the `finally` clause
disconnects on every path, including when `connect` itself raises. -/
def connection_context {α : Type} (cl : RFCClientModel) (st : RFCState)
    (body : RFCState → Except String α × RFCState) :
    Except String α × RFCState :=
  match st.conn with
  | some _ =>
    let r := body st
    (r.1, RFCClientModel.disconnect r.2)
  | none =>
    match cl.connect st with
    | .error e => (.error e, RFCClientModel.disconnect st)
    | .ok st1 =>
      let r := body st1
      (r.1, RFCClientModel.disconnect r.2)

/-- Model of `SAPConnection.rfc_connection`: raise SAPConnectionError when no
RFC client is configured, otherwise delegate to the connection context of the
client. -/
def rfc_connection {α : Type} (rfc_client : Option RFCClientModel)
    (st : RFCState) (body : RFCState → Except String α × RFCState) :
    Except String α × RFCState :=
  match rfc_client with
  | none => (.error "Cliente RFC nao configurado", st)
  | some cl => connection_context cl st body

/-! Concrete transports and values used by the witnesses. -/

/-- Transport knowing exactly one table ZC1 with an empty field list. -/
def c1conn : Connection :=
  { getTableStructure := fun n =>
      if n = "ZC1" then
        .ok { header := some { ddtext := none, tabclass := none, clidep := none,
                               created_on := none, changed_on := none },
              field_rows := [] }
      else .error "connection down"
    fetchForeignKeys := fun _ => .ok []
    readTable := fun _ => .error "connection down" }

/-- Table produced by analyzing ZC1 over `c1conn`. -/
def c1table : SAPTable :=
  { name := "ZC1", description := "", table_type := "TRANSP",
    delivery_class := "A", fields := [], foreign_keys := [],
    created_on := none, changed_on := none }

/-- Analyzer state after the first successful analysis of ZC1. -/
def c1state : AnalyzerState :=
  { table_cache := [("ZC1", c1table)], rel_cache := [("ZC1", [])] }

/-- Transport whose structure fetch reports table ZMISS as not found (document
without the DD02V_WA header). -/
def c3conn : Connection :=
  { getTableStructure := fun _ => .ok { header := none, field_rows := [] }
    fetchForeignKeys := fun _ => .ok []
    readTable := fun _ => .error "connection down" }

/-- Transport whose foreign-key fetch always raises. -/
def c9conn : Connection :=
  { getTableStructure := fun _ => .error "connection down"
    fetchForeignKeys := fun _ => .error "forkey fetch failed"
    readTable := fun _ => .error "connection down" }

/-- Provider stub returning a fixed groq marker. -/
def cexGroq : ProviderFn := fun _ _ _ => "groq-output"

/-- Provider stub returning a fixed openai marker. -/
def cexOpenai : ProviderFn := fun _ _ _ => "openai-output"

/-- Environment with only GROQ_API_KEY set. -/
def cexEnv : EnvVars := { groq_api_key := true, openai_api_key := false }

/-- Whether the structure fetch of a table succeeds with the DD02V_WA header
present: the condition under which `analyze_table` can analyze a table that is
not yet cached. -/
def structureFound (c : Connection) (n : String) : Bool :=
  match c.getTableStructure n with
  | .ok doc => doc.header.isSome
  | .error _ => false

/-- Whether `analyze_table` succeeds for a name in a given state: either the
table is cached, or its structure fetch succeeds with a header. -/
def tableOk (c : Connection) (s : AnalyzerState) (n : String) : Bool :=
  (lookup s.table_cache n).isSome || structureFound c n

/-- Well-formedness of the table cache: every entry is stored under the name
of the table it holds (the code always inserts under `table.name`). -/
def CacheWF (s : AnalyzerState) : Prop :=
  ∀ k t, lookup s.table_cache k = some t → t.name = k

/-- Transport for the C4 witness: table ZB is reported not found, every other
table has an empty structure. -/
def c4conn : Connection :=
  { getTableStructure := fun n =>
      if n = "ZB" then .ok { header := none, field_rows := [] }
      else
        .ok { header := some { ddtext := none, tabclass := none, clidep := none,
                               created_on := none, changed_on := none },
              field_rows := [] }
    fetchForeignKeys := fun _ => .ok []
    readTable := fun _ => .error "connection down" }

/-- Character of one decimal digit: the rendering counterpart of `digitVal`.
Only the last decimal digit of the argument matters. -/
def digitChar (k : Nat) : Char := Char.ofNat (48 + k % 10)

/-- Four-digit zero-padded rendering of a number up to 9999. -/
def render4 (n : Nat) : List Char :=
  [digitChar (n / 1000), digitChar (n / 100), digitChar (n / 10), digitChar n]

/-- Two-digit zero-padded rendering of a number up to 99. -/
def render2 (n : Nat) : List Char :=
  [digitChar (n / 10), digitChar n]

/-- The 8-character YYYYMMDD rendering of a calendar date: the specification
side of the date-parser round trip, written independently of the parser. -/
def dateToYYYYMMDD (y m d : Nat) : String :=
  String.mk (render4 y ++ render2 m ++ render2 d)

/-- Transport for the C10 witness: every table has a header whose creation and
change dates are malformed. -/
def c10conn : Connection :=
  { getTableStructure := fun _ =>
      .ok { header := some { ddtext := none, tabclass := none, clidep := none,
                             created_on := some "NOTADATE",
                             changed_on := some "20231340" },
            field_rows := [] }
    fetchForeignKeys := fun _ => .error "connection down"
    readTable := fun _ => .error "connection down" }

/-- Transport for the C6 witness: the read-table call returns three WA rows,
one of them blank. -/
def c6conn : Connection :=
  { getTableStructure := fun _ => .error "connection down"
    fetchForeignKeys := fun _ => .error "connection down"
    readTable := fun _ => .ok { data := some ["ZTABLE1   ", "ZT2", "   "] } }

/-- Core invariant of the traversal of `find_related_tables`, once the root
has been processed: the ghost trace lists exactly the processed set, without
repetition; the root is not in the result set; every collected name is a
relationship target encountered during the traversal. -/
def TravCore (root : String) (tv : Trav) : Prop :=
  (∀ x, x ∈ tv.trace ↔ x ∈ tv.processed) ∧
  tv.trace.Nodup ∧
  root ∉ tv.related ∧
  (∀ x ∈ tv.related, x ∈ tv.targets_seen) ∧
  root ∈ tv.processed

/-- Full invariant of the traversal: either the core invariant holds, or the
traversal has not started yet (nothing processed or collected, only the root
pending). -/
def TravInv (root : String) (tv : Trav) : Prop :=
  (∀ x, x ∈ tv.trace ↔ x ∈ tv.processed) ∧
  tv.trace.Nodup ∧
  root ∉ tv.related ∧
  (∀ x ∈ tv.related, x ∈ tv.targets_seen) ∧
  (root ∈ tv.processed ∨ (tv.processed = [] ∧ tv.related = [] ∧ tv.to_process = [root]))

/-! Theorems. -/

/-- Membership in a set-style insertion. -/
theorem mem_insertSet {x y : String} {xs : List String} :
    x ∈ insertSet y xs ↔ x = y ∨ x ∈ xs := by
  unfold insertSet
  split
  · rename_i hmem
    constructor
    · exact fun h => Or.inr h
    · rintro (rfl | h)
      · exact hmem
      · exact h
  · simp [List.mem_append, or_comm]

/-- The core invariant always implies the full invariant. -/
theorem travCore_travInv {root : String} {tv : Trav} (h : TravCore root tv) :
    TravInv root tv :=
  ⟨h.1, h.2.1, h.2.2.1, h.2.2.2.1, Or.inl h.2.2.2.2⟩

/-- The relationship-loop body preserves the core invariant and does not touch
the processed set or the trace. -/
theorem relStep_preserves (root : String) (b : Bool) (tv : Trav)
    (rel : SAPRelationship) (h : TravCore root tv) :
    TravCore root (relStep b tv rel) := by
  obtain ⟨hiff, hnd, hroot, hsub, hproc⟩ := h
  unfold relStep
  dsimp only
  split
  · exact ⟨hiff, hnd, hroot, fun x hx => mem_insertSet.mpr (Or.inr (hsub x hx)), hproc⟩
  · rename_i hnin
    refine ⟨hiff, hnd, ?_, ?_, hproc⟩
    · intro hcontra
      rcases mem_insertSet.mp hcontra with rfl | hmem
      · exact hnin hproc
      · exact hroot hmem
    · intro x hx
      rcases mem_insertSet.mp hx with rfl | hmem
      · exact mem_insertSet.mpr (Or.inl rfl)
      · exact mem_insertSet.mpr (Or.inr (hsub x hmem))

/-- The whole relationship loop preserves the core invariant. -/
theorem foldl_relStep_preserves (root : String) (b : Bool) :
    ∀ (rels : List SAPRelationship) (tv : Trav), TravCore root tv →
      TravCore root (rels.foldl (relStep b) tv)
  | [], _, h => h
  | rel :: rest, tv, h =>
    foldl_relStep_preserves root b rest (relStep b tv rel)
      (relStep_preserves root b tv rel h)

/-- Processing one table preserves the core invariant; in particular, its body
runs (and appends to the trace) only when the table was never processed
before. -/
theorem procTable_preserves (root : String) (c : Connection) (b : Bool)
    (tv : Trav) (cur : String) (h : TravCore root tv) :
    TravCore root (procTable c b tv cur) := by
  obtain ⟨hiff, hnd, hroot, hsub, hproc⟩ := h
  unfold procTable
  split
  · exact ⟨hiff, hnd, hroot, hsub, hproc⟩
  · rename_i hnin
    apply foldl_relStep_preserves
    have hcurtrace : cur ∉ tv.trace := fun hc => hnin ((hiff cur).mp hc)
    refine ⟨?_, ?_, hroot, hsub, ?_⟩
    · intro x
      constructor
      · intro hx
        rcases List.mem_append.mp hx with hx | hx
        · exact mem_insertSet.mpr (Or.inr ((hiff x).mp hx))
        · exact mem_insertSet.mpr (Or.inl (List.mem_singleton.mp hx))
      · intro hx
        rcases mem_insertSet.mp hx with rfl | hx
        · exact List.mem_append.mpr (Or.inr (List.mem_singleton.mpr rfl))
        · exact List.mem_append.mpr (Or.inl ((hiff x).mpr hx))
    · refine List.Nodup.append hnd (List.nodup_singleton cur) ?_
      intro a ha hb
      rw [List.mem_singleton] at hb
      subst hb
      exact hcurtrace ha
    · exact mem_insertSet.mpr (Or.inr hproc)

/-- Processing a whole level preserves the core invariant. -/
theorem foldl_procTable_preserves (root : String) (c : Connection) (b : Bool) :
    ∀ (level : List String) (tv : Trav), TravCore root tv →
      TravCore root (level.foldl (procTable c b) tv)
  | [], _, h => h
  | cur :: rest, tv, h =>
    foldl_procTable_preserves root c b rest (procTable c b tv cur)
      (procTable_preserves root c b tv cur h)

/-- Processing the root in a pristine traversal state establishes the core
invariant: the root is marked processed before any of its relationship targets
is examined, so it can never enter the result set. -/
theorem procTable_start (root : String) (c : Connection) (b : Bool) (tv : Trav)
    (hp : tv.processed = []) (hr : tv.related = [])
    (hiff : ∀ x, x ∈ tv.trace ↔ x ∈ tv.processed) :
    TravCore root (procTable c b tv root) := by
  have htrace : tv.trace = [] := by
    refine List.eq_nil_iff_forall_not_mem.mpr fun x hx => ?_
    have hx2 := (hiff x).mp hx
    rw [hp] at hx2
    exact (List.not_mem_nil x) hx2
  unfold procTable
  split
  · rename_i hin
    rw [hp] at hin
    exact absurd hin (List.not_mem_nil root)
  · apply foldl_relStep_preserves
    refine ⟨?_, ?_, ?_, ?_, ?_⟩ <;> simp [hp, hr, htrace, insertSet]

/-- One depth level of the traversal preserves the full invariant. -/
theorem levelStep_preserves (root : String) (c : Connection) (maxd : Nat)
    (d : Nat) (tv : Trav) (h : TravInv root tv) :
    TravInv root (levelStep c maxd tv d) := by
  obtain ⟨hiff, hnd, hroot, hsub, hdisj⟩ := h
  unfold levelStep
  split
  · exact ⟨hiff, hnd, hroot, hsub, hdisj⟩
  · rcases hdisj with hproc | ⟨hp, hr, htp⟩
    · refine travCore_travInv ?_
      unfold levelStep.procLevel
      exact foldl_procTable_preserves root c _ tv.to_process
        { tv with to_process := [] } ⟨hiff, hnd, hroot, hsub, hproc⟩
    · rw [htp]
      refine travCore_travInv ?_
      unfold levelStep.procLevel
      simp only [List.foldl]
      exact procTable_start root c _ { tv with to_process := [] } hp hr hiff

/-- Any sequence of depth levels preserves the full invariant. -/
theorem foldl_levelStep_preserves (root : String) (c : Connection) (maxd : Nat) :
    ∀ (ds : List Nat) (tv : Trav), TravInv root tv →
      TravInv root (ds.foldl (levelStep c maxd) tv)
  | [], _, h => h
  | d :: rest, tv, h =>
    foldl_levelStep_preserves root c maxd rest (levelStep c maxd tv d)
      (levelStep_preserves root c maxd d tv h)

/-- The full invariant holds at the end of every traversal. -/
theorem run_satisfies_inv (c : Connection) (root : String) (k : Nat)
    (s : AnalyzerState) :
    TravInv root (find_related_tables_run c root k s) := by
  unfold find_related_tables_run
  apply foldl_levelStep_preserves
  refine ⟨?_, ?_, ?_, ?_, Or.inr ⟨rfl, rfl, rfl⟩⟩ <;> simp

/-- C1: if `analyze_table` succeeds for a name, any immediately subsequent
call on the same analyzer instance, with either value of
`include_relationships`, returns the identical cached table and leaves the
state unchanged: the level of detail of the first call wins. -/
theorem C1_cache_stable (c : Connection) (s : AnalyzerState) (n : String)
    (i1 i2 : Bool) (t : SAPTable) (s1 : AnalyzerState)
    (h : analyze_table c s n i1 = (.ok t, s1)) :
    analyze_table c s1 n i2 = (.ok t, s1) := by
  cases hl : lookup s.table_cache n with
  | some t0 =>
    simp only [analyze_table, hl] at h
    obtain ⟨ht, hs⟩ := Prod.mk.injEq .. |>.mp h
    cases ht
    cases hs
    simp only [analyze_table, hl]
  | none =>
    cases hg : c.getTableStructure n with
    | error e => simp [analyze_table, hl, hg] at h
    | ok doc =>
      cases hh : doc.header with
      | none => simp [analyze_table, hl, hg, hh] at h
      | some hdr =>
        simp only [analyze_table, hl, hg, hh] at h
        obtain ⟨ht, hs⟩ := Prod.mk.injEq .. |>.mp h
        cases Except.ok.injEq .. |>.mp ht
        cases hs
        simp [analyze_table, lookup]

/-- Closed witness for C1: a concrete first analysis of ZC1 with
relationships, then a second call without them, observing the cached table. -/
theorem C1_cache_stable_witness :
    analyze_table c1conn c1state "ZC1" false = (.ok c1table, c1state) :=
  C1_cache_stable c1conn emptyState "ZC1" true false c1table c1state rfl

/-- C3: when a table is not cached and its structure fetch reports not found
(no DD02V_WA header in the document), `analyze_table` raises
SAPTableNotFoundError — a condition distinct from the generic
SAPMetadataError — and leaves the analyzer state, in particular the table
cache, unchanged. -/
theorem C3_not_found_no_cache (c : Connection) (s : AnalyzerState) (n : String)
    (i : Bool) (doc : StructureDoc)
    (h1 : lookup s.table_cache n = none)
    (h2 : c.getTableStructure n = .ok doc)
    (h3 : doc.header = none) :
    analyze_table c s n i = (.error (.tableNotFound n), s) ∧
    (∀ msg, SAPError.tableNotFound n ≠ SAPError.metadataError msg) := by
  refine ⟨by simp [analyze_table, h1, h2, h3], ?_⟩
  intro msg hcontra
  cases hcontra

/-- Closed witness for C3: the not-found table ZMISS raises the distinct
condition and the fresh state keeps its empty cache. -/
theorem C3_not_found_no_cache_witness :
    analyze_table c3conn emptyState "ZMISS" true
      = (.error (.tableNotFound "ZMISS"), emptyState) ∧
    (∀ msg, SAPError.tableNotFound "ZMISS" ≠ SAPError.metadataError msg) :=
  C3_not_found_no_cache c3conn emptyState "ZMISS" true
    { header := none, field_rows := [] } rfl rfl rfl

/-- C5: `find_related_tables` with `max_depth = 0` returns the empty list and
leaves the analyzer state unchanged: no relationship is expanded. -/
theorem C5_depth_zero_empty (c : Connection) (root : String) (s : AnalyzerState) :
    find_related_tables c root 0 s = ([], s) := rfl

/-- C7 counterexample: the empty string is an explicit provider name that is
not among the registered providers, yet `generate` does not raise the
provider-not-found condition: the falsy name is silently replaced by the
default provider, which is invoked. -/
theorem C7_counterexample :
    lookup (mkLLMClient cexEnv cexGroq cexOpenai).providers "" = none ∧
    (mkLLMClient cexEnv cexGroq cexOpenai).generate "sys" "usr" (some "") none
      = .ok "groq-output" := ⟨rfl, rfl⟩

/-- C7 amended: for every explicit non-empty provider name that is not among
the registered providers (groq, openai), `generate` raises the
provider-not-found condition without invoking any provider (the result does
not depend on the provider implementations); when no provider is given, the
registered default provider is the one used. -/
theorem C7_amended_routing (env : EnvVars) (g o : ProviderFn)
    (sys usr : String) (m : Option String) (name : String)
    (h1 : name ≠ "") (h2 : name ≠ "groq") (h3 : name ≠ "openai") :
    (mkLLMClient env g o).generate sys usr (some name) m
      = .error (.providerNotFound name) ∧
    (mkLLMClient env g o).generate sys usr none m
      = (mkLLMClient env g o).generate sys usr
          (some (get_default_provider env)) m := by
  constructor
  · simp only [LLMClient.generate, mkLLMClient, if_neg h1, lookup,
      if_neg (Ne.symm h2), if_neg (Ne.symm h3)]
  · have hd : get_default_provider env ≠ "" := by
      unfold get_default_provider
      split
      · decide
      · split <;> decide
    simp only [LLMClient.generate, mkLLMClient, if_neg hd]

/-- Closed witness for C7 amended: the unregistered name arcee raises the
condition, and the defaulted call routes to the groq provider selected by the
environment. -/
theorem C7_amended_routing_witness :
    (mkLLMClient cexEnv cexGroq cexOpenai).generate "sys" "usr"
        (some "arcee") none = .error (.providerNotFound "arcee") ∧
    (mkLLMClient cexEnv cexGroq cexOpenai).generate "sys" "usr" none none
      = (mkLLMClient cexEnv cexGroq cexOpenai).generate "sys" "usr"
          (some (get_default_provider cexEnv)) none :=
  C7_amended_routing cexEnv cexGroq cexOpenai "sys" "usr" none "arcee"
    (by decide) (by decide) (by decide)

/-- C8: the RFC connection context disconnects the client on every exit path:
normal completion of the body, an exception in the body (error outcome), an
early return (also a value outcome), and even a failure of `connect` itself;
the same holds for the wrapping `rfc_connection` context of the SAP
connection. -/
theorem C8_context_releases {α : Type} (cl : RFCClientModel) (st : RFCState)
    (body : RFCState → Except String α × RFCState) :
    ((connection_context cl st body).2).conn = none ∧
    ((rfc_connection (some cl) st body).2).conn = none := by
  have key : ((connection_context cl st body).2).conn = none := by
    unfold connection_context
    cases st.conn with
    | some v => rfl
    | none =>
      cases cl.connect st with
      | error e => rfl
      | ok st1 => rfl
  exact ⟨key, key⟩

/-- C9: when a table is not in the relationship cache and its foreign-key
fetch raises, the analyzer stores the empty relationship list in the cache;
every later relationship query for that table answers the empty list from the
cache without consulting the transport (the answer is the same for every
connection), until `clear_cache` removes the entry. -/
theorem C9_rel_failure_cached (c : Connection) (s : AnalyzerState) (T : String)
    (e : String)
    (hmiss : lookup s.rel_cache T = none)
    (hfail : c.fetchForeignKeys T = .error e) :
    analyze_table_relationships c s T
      = ([], { s with rel_cache := (T, []) :: s.rel_cache }) ∧
    (∀ c2 : Connection,
      analyze_table_relationships c2
          { s with rel_cache := (T, []) :: s.rel_cache } T
        = ([], { s with rel_cache := (T, []) :: s.rel_cache })) ∧
    lookup (clear_cache { s with rel_cache := (T, []) :: s.rel_cache }).rel_cache T
      = none := by
  refine ⟨by simp [analyze_table_relationships, hmiss, hfail], ?_, rfl⟩
  intro c2
  simp [analyze_table_relationships, lookup]

/-- Closed witness for C9: a transport whose foreign-key fetch always fails
leaves the empty list cached for ZT9, stable across any later transport. -/
theorem C9_rel_failure_cached_witness :
    analyze_table_relationships c9conn emptyState "ZT9"
      = ([], { emptyState with rel_cache := [("ZT9", [])] }) ∧
    (∀ c2 : Connection,
      analyze_table_relationships c2
          { emptyState with rel_cache := [("ZT9", [])] } "ZT9"
        = ([], { emptyState with rel_cache := [("ZT9", [])] })) ∧
    lookup (clear_cache { emptyState with rel_cache := [("ZT9", [])] }).rel_cache
        "ZT9" = none :=
  C9_rel_failure_cached c9conn emptyState "ZT9" "forkey fetch failed" rfl rfl

/-- C2: for every relationship graph (transport), root and depth bound, the
traversal of `find_related_tables` processes no table more than once (the
ghost trace of processed tables has no duplicate), the returned collection
never contains the root (the code is even stronger than the claim, which
merely allows the root when pointed back at), and every returned name is a
relationship target discovered during the traversal. -/
theorem C2_no_revisit_no_root (c : Connection) (root : String) (k : Nat)
    (s : AnalyzerState) :
    (find_related_tables_run c root k s).trace.Nodup ∧
    root ∉ (find_related_tables c root k s).1 ∧
    (∀ x ∈ (find_related_tables c root k s).1,
      x ∈ (find_related_tables_run c root k s).targets_seen) := by
  have h := run_satisfies_inv c root k s
  exact ⟨h.2.1, h.2.2.1, h.2.2.2.1⟩

/-- The empty cache is well formed. -/
theorem emptyState_wf : CacheWF emptyState := fun _ _ h => Option.noConfusion h

/-- The relationship analysis never touches the table cache. -/
theorem rel_preserves_table_cache (c : Connection) (s : AnalyzerState)
    (t : String) :
    (analyze_table_relationships c s t).2.table_cache = s.table_cache := by
  unfold analyze_table_relationships
  cases lookup s.rel_cache t <;> rfl

/-- The optional relationship step of `analyze_table` never touches the table
cache either. -/
theorem if_rel_table_cache (c : Connection) (s : AnalyzerState) (n : String)
    (i : Bool) :
    ((if i = true then analyze_table_relationships c s n
      else ([], s)).2).table_cache = s.table_cache := by
  cases i <;> simp [rel_preserves_table_cache]

/-- When a table is neither cached nor found by the structure fetch,
`analyze_table` fails and leaves the analyzer state unchanged. -/
theorem analyze_table_fail (c : Connection) (s : AnalyzerState) (n : String)
    (i : Bool) (h : tableOk c s n = false) :
    ∃ e, analyze_table c s n i = (.error e, s) := by
  rw [tableOk, Bool.or_eq_false_iff] at h
  obtain ⟨h1, h2⟩ := h
  cases hl : lookup s.table_cache n with
  | some t => rw [hl] at h1; exact absurd h1 (by simp)
  | none =>
    cases hg : c.getTableStructure n with
    | error e => exact ⟨.metadataError e, by simp [analyze_table, hl, hg]⟩
    | ok doc =>
      simp only [structureFound, hg] at h2
      cases hh : doc.header with
      | some hdr => rw [hh] at h2; exact absurd h2 (by simp)
      | none => exact ⟨.tableNotFound n, by simp [analyze_table, hl, hg, hh]⟩

/-- Explicit form of the successful fetch path of `analyze_table`. -/
theorem analyze_table_success_eq (c : Connection) (s : AnalyzerState)
    (n : String) (i : Bool) (doc : StructureDoc) (hdr : TableHeader)
    (hl : lookup s.table_cache n = none)
    (hg : c.getTableStructure n = .ok doc)
    (hh : doc.header = some hdr) :
    analyze_table c s n i =
      (.ok (buildTable n hdr doc.field_rows
          (if i = true then analyze_table_relationships c s n else ([], s)).1),
       { table_cache := (n, buildTable n hdr doc.field_rows
            (if i = true then analyze_table_relationships c s n else ([], s)).1)
            :: (if i = true then analyze_table_relationships c s n
                else ([], s)).2.table_cache
         rel_cache := (if i = true then analyze_table_relationships c s n
            else ([], s)).2.rel_cache }) := by
  simp [analyze_table, hl, hg, hh, buildTable]

/-- When a table is cached or found, `analyze_table` succeeds, the returned
table carries the requested name, the cache stays well formed, and the success
or failure of every name is unaffected by the call. -/
theorem analyze_table_ok (c : Connection) (s : AnalyzerState) (n : String)
    (i : Bool) (h : tableOk c s n = true) (hwf : CacheWF s) :
    ∃ t s1, analyze_table c s n i = (.ok t, s1) ∧ t.name = n ∧ CacheWF s1 ∧
      (∀ m, tableOk c s1 m = tableOk c s m) := by
  cases hl : lookup s.table_cache n with
  | some t =>
    exact ⟨t, s, by simp [analyze_table, hl], hwf n t hl, hwf, fun _ => rfl⟩
  | none =>
    have hsf : structureFound c n = true := by
      rw [tableOk, hl] at h
      simpa using h
    cases hg : c.getTableStructure n with
    | error e => simp only [structureFound, hg] at hsf; exact absurd hsf (by simp)
    | ok doc =>
      simp only [structureFound, hg] at hsf
      cases hh : doc.header with
      | none => rw [hh] at hsf; exact absurd hsf (by simp)
      | some hdr =>
        rw [analyze_table_success_eq c s n i doc hdr hl hg hh]
        refine ⟨_, _, rfl, rfl, ?_, ?_⟩
        · intro k u hk
          simp only [if_rel_table_cache, lookup] at hk
          by_cases hkn : n = k
          · rw [if_pos hkn] at hk
            injection hk with hk2
            subst hk2
            exact hkn
          · rw [if_neg hkn] at hk
            exact hwf k u hk
        · intro m
          simp only [tableOk, if_rel_table_cache, lookup]
          by_cases hmn : n = m
          · rw [if_pos hmn]
            subst hmn
            rw [tableOk] at h
            rw [h]
            rfl
          · rw [if_neg hmn]

/-- C4: `analyze_multiple_tables` returns exactly the tables whose individual
analysis succeeds, in order: a name whose structure fetch reports not found,
or raises any other error, is silently omitted, and every returned element is
a complete table carrying the requested name.  Success of a name is
characterized by `tableOk`: cached already, or structure fetch succeeding with
a header. -/
theorem C4_batch_exact (c : Connection) (s : AnalyzerState)
    (names : List String) (hwf : CacheWF s) :
    ((analyze_multiple_tables c s names).1).map SAPTable.name
      = names.filter (tableOk c s) := by
  induction names generalizing s with
  | nil => rfl
  | cons n rest ih =>
    cases hok : tableOk c s n with
    | false =>
      obtain ⟨e, he⟩ := analyze_table_fail c s n true hok
      have hstep : analyze_multiple_tables c s (n :: rest)
          = analyze_multiple_tables c s rest := by
        simp only [analyze_multiple_tables, he]
      rw [hstep, List.filter_cons, hok]
      simpa using ih s hwf
    | true =>
      obtain ⟨t, s1, he, hname, hwf1, hstab⟩ := analyze_table_ok c s n true hok hwf
      have hstep : analyze_multiple_tables c s (n :: rest)
          = (t :: (analyze_multiple_tables c s1 rest).1,
             (analyze_multiple_tables c s1 rest).2) := by
        simp only [analyze_multiple_tables, he]
      rw [hstep, List.filter_cons, hok]
      simp only [List.map_cons, hname]
      rw [ih s1 hwf1, List.filter_congr (fun a _ => hstab a)]
      simp

/-- Closed witness for C4: over a transport where ZB is missing, the batch
analysis of ZA, ZB, ZC returns exactly the tables named ZA and ZC. -/
theorem C4_batch_exact_witness :
    ((analyze_multiple_tables c4conn emptyState ["ZA", "ZB", "ZC"]).1).map
        SAPTable.name = ["ZA", "ZC"] := by
  rw [C4_batch_exact c4conn emptyState ["ZA", "ZB", "ZC"] emptyState_wf]
  rfl

/-- C6 counterexample: the OPTIONS of the request issued by
`search_custom_tables` are exactly a name-pattern LIKE condition, TABCLASS =
TRANSP (transparent) and AS4LOCAL = A (active) — there is no client-dependence
restriction — and the ROWCOUNT is the constant 1000 for every call; the
function takes only the pattern, so the caller cannot choose the maximum
number of rows. -/
theorem C6_counterexample :
    (searchRequest "Z*").options
      = ["TABNAME LIKE " ++ sq ++ "Z*" ++ sq,
         "AND TABCLASS = " ++ sq ++ "TRANSP" ++ sq,
         "AND AS4LOCAL = " ++ sq ++ "A" ++ sq] ∧
    (searchRequest "Z*").rowcount = 1000 ∧
    (searchRequest "ZMAT*").rowcount = 1000 := ⟨rfl, rfl, rfl⟩

/-- C6 amended: `search_custom_tables` issues a server-side RFC_READ_TABLE
query on DD02L for TABNAME and DDTEXT, restricted by a wildcard LIKE condition
on the caller-supplied pattern and to transparent (TABCLASS = TRANSP), active
(AS4LOCAL = A) tables, with a fixed row limit of 1000; it returns the nonempty
whitespace-trimmed 30-character table names of the response rows, and the
empty list when the call raises or the response has no DATA. -/
theorem C6_amended_search (p : String) (c : Connection) :
    (searchRequest p).query_table = "DD02L" ∧
    (searchRequest p).fields = ["TABNAME", "DDTEXT"] ∧
    (searchRequest p).options
      = ["TABNAME LIKE " ++ sq ++ p ++ sq,
         "AND TABCLASS = " ++ sq ++ "TRANSP" ++ sq,
         "AND AS4LOCAL = " ++ sq ++ "A" ++ sq] ∧
    (searchRequest p).rowcount = 1000 ∧
    (∀ rows, c.readTable (searchRequest p) = .ok { data := some rows } →
      search_custom_tables c p
        = rows.filterMap (fun wa =>
            let tn := waName wa
            if tn ≠ "" then some tn else none)) ∧
    (∀ e, c.readTable (searchRequest p) = .error e →
      search_custom_tables c p = []) := by
  refine ⟨rfl, rfl, rfl, rfl, ?_, ?_⟩
  · intro rows h
    simp [search_custom_tables, h]
  · intro e h
    simp [search_custom_tables, h]

/-- Closed witness for C6 amended: over a transport answering three WA rows,
the search returns the two nonempty trimmed names. -/
theorem C6_amended_search_witness :
    search_custom_tables c6conn "Z*" = ["ZTABLE1", "ZT2"] ∧
    (searchRequest "Z*").rowcount = 1000 := by
  obtain ⟨h1, h2, h3, h4, h5, h6⟩ := C6_amended_search "Z*" c6conn
  refine ⟨?_, h4⟩
  rw [h5 ["ZTABLE1   ", "ZT2", "   "] rfl]
  decide

/-- Code point of a rendered digit character. -/
theorem digitChar_toNat (k : Nat) : (digitChar k).toNat = 48 + k % 10 := by
  have h : k % 10 < 10 := Nat.mod_lt k (by decide)
  unfold digitChar
  generalize k % 10 = r at h ⊢
  interval_cases r <;> decide

/-- A rendered digit character passes the decimal-digit test. -/
theorem decimalDigit_digitChar (k : Nat) : decimalDigit (digitChar k) = true := by
  have h := digitChar_toNat k
  have h2 : k % 10 < 10 := Nat.mod_lt k (by decide)
  simp only [decimalDigit, Bool.and_eq_true, decide_eq_true_eq, h]
  omega

/-- Digit value of a rendered digit character. -/
theorem digitVal_digitChar (k : Nat) : digitVal (digitChar k) = k % 10 := by
  rw [digitVal, digitChar_toNat]
  omega

/-- Characters are determined by their code points. -/
theorem char_toNat_inj {a b : Char} (h : a.toNat = b.toNat) : a = b :=
  Char.ext (UInt32.ext h)

/-- Rendering the digit value of a decimal-digit character returns the
character itself. -/
theorem digitChar_digitVal_eq {c : Char} (h1 : 48 ≤ c.toNat) (h2 : c.toNat ≤ 57) :
    digitChar (c.toNat - 48) = c := by
  refine char_toNat_inj ?_
  rw [digitChar_toNat]
  omega

/-- A list of length eight is an explicit eight-element list. -/
theorem list_length_eight {α : Type} :
    ∀ (l : List α), l.length = 8 →
      ∃ a b c d e f g i, l = [a, b, c, d, e, f, g, i]
  | [a, b, c, d, e, f, g, i], _ => ⟨a, b, c, d, e, f, g, i, rfl⟩
  | [], h => by simp at h
  | [_], h => by simp at h
  | [_, _], h => by simp at h
  | [_, _, _], h => by simp at h
  | [_, _, _, _], h => by simp at h
  | [_, _, _, _, _], h => by simp at h
  | [_, _, _, _, _, _], h => by simp at h
  | [_, _, _, _, _, _, _], h => by simp at h
  | _ :: _ :: _ :: _ :: _ :: _ :: _ :: _ :: _ :: t, h => by simp at h

/-- No month has more than 31 days. -/
theorem daysInMonth_le_31 (y m : Nat) : daysInMonth y m ≤ 31 := by
  unfold daysInMonth
  split
  · split <;> decide
  · split <;> decide

/-- Parsing the rendering of a valid calendar date returns exactly that
date. -/
theorem parse_render (y m d : Nat) (hy1 : 1 ≤ y) (hy2 : y ≤ 9999)
    (hm1 : 1 ≤ m) (hm2 : m ≤ 12) (hd1 : 1 ≤ d) (hd2 : d ≤ daysInMonth y m) :
    parse_sap_date (some (dateToYYYYMMDD y m d)) = some ⟨y, m, d⟩ := by
  have hlen : (dateToYYYYMMDD y m d).length = 8 := rfl
  have hlist : (dateToYYYYMMDD y m d).toList
      = [digitChar (y / 1000), digitChar (y / 100), digitChar (y / 10), digitChar y,
         digitChar (m / 10), digitChar m, digitChar (d / 10), digitChar d] := rfl
  have hall : ((dateToYYYYMMDD y m d).toList.all decimalDigit) = true := by
    rw [hlist]
    simp [List.all, decimalDigit_digitChar]
  simp only [parse_sap_date]
  rw [if_neg (fun hq => hq hlen), if_neg (fun hq => hq hall), hlist]
  have hy : digitsVal ([digitChar (y / 1000), digitChar (y / 100), digitChar (y / 10),
      digitChar y, digitChar (m / 10), digitChar m, digitChar (d / 10),
      digitChar d].take 4) = y := by
    show digitsVal [digitChar (y / 1000), digitChar (y / 100), digitChar (y / 10),
      digitChar y] = y
    simp only [digitsVal, List.foldl, digitVal_digitChar]
    omega
  have hm : digitsVal (([digitChar (y / 1000), digitChar (y / 100), digitChar (y / 10),
      digitChar y, digitChar (m / 10), digitChar m, digitChar (d / 10),
      digitChar d].drop 4).take 2) = m := by
    show digitsVal [digitChar (m / 10), digitChar m] = m
    simp only [digitsVal, List.foldl, digitVal_digitChar]
    omega
  have hd : digitsVal ([digitChar (y / 1000), digitChar (y / 100), digitChar (y / 10),
      digitChar y, digitChar (m / 10), digitChar m, digitChar (d / 10),
      digitChar d].drop 6) = d := by
    show digitsVal [digitChar (d / 10), digitChar d] = d
    have h31 := daysInMonth_le_31 y m
    simp only [digitsVal, List.foldl, digitVal_digitChar]
    omega
  rw [hy, hm, hd]
  rw [if_pos ⟨hy1, hm1, hm2, hd1, hd2⟩]

/-- A successful parse exposes its input as the rendering of the returned
date, with all calendar bounds satisfied. -/
theorem parse_sound (s : String) (y m d : Nat)
    (hp : parse_sap_date (some s) = some ⟨y, m, d⟩) :
    1 ≤ y ∧ y ≤ 9999 ∧ 1 ≤ m ∧ m ≤ 12 ∧ 1 ≤ d ∧ d ≤ daysInMonth y m ∧
      s = dateToYYYYMMDD y m d := by
  simp only [parse_sap_date] at hp
  by_cases hlen : s.length = 8
  case neg =>
    rw [if_pos hlen] at hp
    exact absurd hp (by simp)
  case pos =>
    rw [if_neg (fun hq => hq hlen)] at hp
    by_cases hall : s.toList.all decimalDigit = true
    case neg =>
      rw [if_pos hall] at hp
      exact absurd hp (by simp)
    case pos =>
      rw [if_neg (fun hq => hq hall)] at hp
      have h8 : s.toList.length = 8 := hlen
      obtain ⟨c0, c1, c2, c3, c4, c5, c6, c7, hl⟩ := list_length_eight s.toList h8
      rw [hl] at hp hall
      have hb : ∀ x ∈ [c0, c1, c2, c3, c4, c5, c6, c7],
          48 ≤ x.toNat ∧ x.toNat ≤ 57 := by
        intro x hx
        have hx2 := List.all_eq_true.mp hall x hx
        simpa [decimalDigit, Bool.and_eq_true, decide_eq_true_eq] using hx2
      obtain ⟨h0a, h0b⟩ := hb c0 (by simp)
      obtain ⟨h1a, h1b⟩ := hb c1 (by simp)
      obtain ⟨h2a, h2b⟩ := hb c2 (by simp)
      obtain ⟨h3a, h3b⟩ := hb c3 (by simp)
      obtain ⟨h4a, h4b⟩ := hb c4 (by simp)
      obtain ⟨h5a, h5b⟩ := hb c5 (by simp)
      obtain ⟨h6a, h6b⟩ := hb c6 (by simp)
      obtain ⟨h7a, h7b⟩ := hb c7 (by simp)
      have ht : List.take 4 [c0, c1, c2, c3, c4, c5, c6, c7] = [c0, c1, c2, c3] := rfl
      have hta : List.take 2 (List.drop 4 [c0, c1, c2, c3, c4, c5, c6, c7])
          = [c4, c5] := rfl
      have htb : List.drop 6 [c0, c1, c2, c3, c4, c5, c6, c7] = [c6, c7] := rfl
      rw [ht, hta, htb] at hp
      have e0 : digitsVal [c0, c1, c2, c3]
          = (((0 * 10 + (c0.toNat - 48)) * 10 + (c1.toNat - 48)) * 10
              + (c2.toNat - 48)) * 10 + (c3.toNat - 48) := rfl
      have e1 : digitsVal [c4, c5]
          = (0 * 10 + (c4.toNat - 48)) * 10 + (c5.toNat - 48) := rfl
      have e2 : digitsVal [c6, c7]
          = (0 * 10 + (c6.toNat - 48)) * 10 + (c7.toNat - 48) := rfl
      split at hp
      case isFalse => exact absurd hp (by simp)
      case isTrue hcond =>
        rw [Option.some.injEq, SAPDate.mk.injEq] at hp
        obtain ⟨hpy, hpm, hpd⟩ := hp
        obtain ⟨hc1, hc2, hc3, hc4, hc5⟩ := hcond
        subst hpy
        subst hpm
        subst hpd
        refine ⟨hc1, ?_, hc2, hc3, hc4, hc5, ?_⟩
        · rw [e0]
          omega
        · have hs : s = String.mk s.toList := by
            rcases s with ⟨data⟩
            rfl
          rw [hs, hl]
          unfold dateToYYYYMMDD
          congr 1
          show _ = render4 (digitsVal [c0, c1, c2, c3])
            ++ render2 (digitsVal [c4, c5]) ++ render2 (digitsVal [c6, c7])
          have hr : render4 (digitsVal [c0, c1, c2, c3])
              ++ render2 (digitsVal [c4, c5]) ++ render2 (digitsVal [c6, c7])
              = [digitChar (digitsVal [c0, c1, c2, c3] / 1000),
                 digitChar (digitsVal [c0, c1, c2, c3] / 100),
                 digitChar (digitsVal [c0, c1, c2, c3] / 10),
                 digitChar (digitsVal [c0, c1, c2, c3]),
                 digitChar (digitsVal [c4, c5] / 10),
                 digitChar (digitsVal [c4, c5]),
                 digitChar (digitsVal [c6, c7] / 10),
                 digitChar (digitsVal [c6, c7])] := rfl
          rw [hr]
          simp only [List.cons.injEq, and_true]
          refine ⟨?_, ?_, ?_, ?_, ?_, ?_, ?_, ?_⟩ <;>
            (apply char_toNat_inj; rw [digitChar_toNat]) <;>
            simp only [e0, e1, e2] <;> omega

/-- C10: the SAP date parser is total and returns None exactly on malformed
input: None for a missing value, the empty string, any string whose length is
not 8, and any 8-character string that is not the YYYYMMDD rendering of a
calendar date; it returns a parsed date exactly on such renderings.
Consequently a malformed creation or change date never makes `analyze_table`
fail: success depends only on the cache and the presence of the structure
header. -/
theorem C10_date_parser_total :
    parse_sap_date none = none ∧
    parse_sap_date (some "") = none ∧
    (∀ s : String, s.length ≠ 8 → parse_sap_date (some s) = none) ∧
    (∀ (s : String) (y m d : Nat), parse_sap_date (some s) = some ⟨y, m, d⟩ →
      1 ≤ y ∧ y ≤ 9999 ∧ 1 ≤ m ∧ m ≤ 12 ∧ 1 ≤ d ∧ d ≤ daysInMonth y m ∧
        s = dateToYYYYMMDD y m d) ∧
    (∀ y m d : Nat, 1 ≤ y → y ≤ 9999 → 1 ≤ m → m ≤ 12 → 1 ≤ d →
      d ≤ daysInMonth y m →
      parse_sap_date (some (dateToYYYYMMDD y m d)) = some ⟨y, m, d⟩) ∧
    (∀ (c : Connection) (st : AnalyzerState) (n : String) (i : Bool),
      lookup st.table_cache n = none → structureFound c n = true →
      ∃ t s1, analyze_table c st n i = (.ok t, s1)) := by
  refine ⟨rfl, rfl, ?_, parse_sound, parse_render, ?_⟩
  · intro s h
    simp only [parse_sap_date]
    rw [if_pos h]
  · intro c st n i hlc hsf
    cases hg : c.getTableStructure n with
    | error e =>
      simp only [structureFound, hg] at hsf
      exact absurd hsf (by simp)
    | ok doc =>
      simp only [structureFound, hg] at hsf
      cases hh : doc.header with
      | none => rw [hh] at hsf; simp at hsf
      | some hdr =>
        exact ⟨_, _, analyze_table_success_eq c st n i doc hdr hlc hg hh⟩

/-- Closed witness for C10: a short string parses to None, the rendering of
the leap day 2024-02-29 parses back to itself, and a table whose header
carries malformed dates is still analyzed successfully. -/
theorem C10_date_parser_total_witness :
    parse_sap_date (some "2024") = none ∧
    parse_sap_date (some (dateToYYYYMMDD 2024 2 29)) = some ⟨2024, 2, 29⟩ ∧
    (∃ t s1, analyze_table c10conn emptyState "ZD" true = (.ok t, s1)) := by
  obtain ⟨_, _, h3, _, h5, h6⟩ := C10_date_parser_total
  exact ⟨h3 "2024" (by decide),
    h5 2024 2 29 (by decide) (by decide) (by decide) (by decide) (by decide)
      (by decide),
    h6 c10conn emptyState "ZD" true rfl rfl⟩

end ABAPify
